import Mathlib

/-!
Verification of the realtime-leaderboard backend
(`src/backend/src/index1.ts`, `src/unnamed/part_000`).

The service keeps a Redis sorted set `game:leaderboard` mapping player ids to
scores and fans out the full ranking over WebSocket connections.  We embed the
store as an association list from player id to score (one entry per member, as
in a Redis sorted set) and the Redis primitives the code calls — `ZADD`,
`ZINCRBY`, `ZREVRANGE … WITHSCORES` — as pure functions on it.  Scores are
modeled as integers; Redis stores doubles, but no claim under verification
depends on non-integral arithmetic.
-/

namespace RealtimeLeaderboard

/-- The contents of the Redis sorted set: one `(member, score)` pair per
member.  The list order is incidental (Redis orders internally by score; every
read the code performs goes through `zrevrange`, which sorts). -/
abbrev Store := List (String × Int)

/-- `ZSCORE`: the score of a member, if present. -/
def zscore : Store → String → Option Int
  | [], _ => none
  | (k, v) :: rest, id => if k = id then some v else zscore rest id

/-- `ZADD key score member` with no flags, as called by `addPlayer`
(`index1.ts:109-111`): if the member exists its score is UPDATED to the new
value; otherwise the member is added.  Returns the new store and the number of
members added (0 when the member already existed), which is what `zadd`
resolves to. -/
def zadd : Store → Int → String → Store × Nat
  | [], s, id => ([(id, s)], 1)
  | (k, v) :: rest, s, id =>
    if k = id then ((id, s) :: rest, 0)
    else
      let r := zadd rest s id
      ((k, v) :: r.1, r.2)

/-- `ZINCRBY key increment member`, as called by `updateScore`
(`index1.ts:113-130`): atomically adds `increment` to the member's score,
creating the member with score `increment` if absent.  Returns the new store
and the resulting score. -/
def zincrby : Store → Int → String → Store × Int
  | [], d, id => ([(id, d)], d)
  | (k, v) :: rest, d, id =>
    if k = id then ((id, v + d) :: rest, v + d)
    else
      let r := zincrby rest d id
      ((k, v) :: r.1, r.2)

/-- Lexicographic `≤` on character lists, comparing code points. -/
def charListLeb : List Char → List Char → Bool
  | [], _ => true
  | _ :: _, [] => false
  | c :: cs, d :: ds =>
    if c.toNat < d.toNat then true
    else if d.toNat < c.toNat then false
    else charListLeb cs ds

/-- Lexicographic `≤` on strings (Redis compares sorted-set members as byte
strings; for the ids at play code-point order coincides). -/
def strLeb (a b : String) : Bool :=
  charListLeb a.data b.data

theorem charListLeb_total (a b : List Char) :
    charListLeb a b = true ∨ charListLeb b a = true := by
  induction a generalizing b with
  | nil => exact Or.inl rfl
  | cons c cs ih =>
    cases b with
    | nil => exact Or.inr rfl
    | cons d ds =>
      show (if c.toNat < d.toNat then true
              else if d.toNat < c.toNat then false else charListLeb cs ds) = true ∨
           (if d.toNat < c.toNat then true
              else if c.toNat < d.toNat then false else charListLeb ds cs) = true
      rcases Nat.lt_trichotomy c.toNat d.toNat with h | h | h
      · left
        rw [if_pos h]
      · rcases ih ds with hle | hle
        · left
          rw [if_neg (by omega), if_neg (by omega), hle]
        · right
          rw [if_neg (by omega), if_neg (by omega), hle]
      · right
        rw [if_pos h]

theorem charListLeb_trans (a b c : List Char)
    (hab : charListLeb a b = true) (hbc : charListLeb b c = true) :
    charListLeb a c = true := by
  induction a generalizing b c with
  | nil => rfl
  | cons x xs ih =>
    cases b with
    | nil => exact absurd hab (by simp [charListLeb])
    | cons y ys =>
      cases c with
      | nil => exact absurd hbc (by simp [charListLeb])
      | cons z zs =>
        rw [show charListLeb (x :: xs) (y :: ys) =
              (if x.toNat < y.toNat then true
                else if y.toNat < x.toNat then false else charListLeb xs ys) from rfl] at hab
        rw [show charListLeb (y :: ys) (z :: zs) =
              (if y.toNat < z.toNat then true
                else if z.toNat < y.toNat then false else charListLeb ys zs) from rfl] at hbc
        show (if x.toNat < z.toNat then true
                else if z.toNat < x.toNat then false else charListLeb xs zs) = true
        rcases Nat.lt_trichotomy x.toNat y.toNat with h1 | h1 | h1
        · rcases Nat.lt_trichotomy y.toNat z.toNat with h2 | h2 | h2
          · rw [if_pos (by omega)]
          · rw [if_pos (by omega)]
          · rw [if_neg (by omega), if_pos (by omega)] at hbc
            exact absurd hbc (by simp)
        · rw [if_neg (by omega), if_neg (by omega)] at hab
          rcases Nat.lt_trichotomy y.toNat z.toNat with h2 | h2 | h2
          · rw [if_pos (by omega)]
          · rw [if_neg (by omega), if_neg (by omega)] at hbc
            rw [if_neg (by omega), if_neg (by omega)]
            exact ih ys zs hab hbc
          · rw [if_neg (by omega), if_pos (by omega)] at hbc
            exact absurd hbc (by simp)
        · rw [if_neg (by omega), if_pos (by omega)] at hab
          exact absurd hab (by simp)

/-- The order in which `ZREVRANGE key 0 -1 WITHSCORES` yields entries:
score descending, ties broken by member string descending (Redis sorts ties
lexicographically ascending, and `ZREVRANGE` reverses). -/
def entryBefore (a b : String × Int) : Prop :=
  b.2 < a.2 ∨ (a.2 = b.2 ∧ strLeb b.1 a.1 = true)

instance : DecidableRel entryBefore := fun a b => by
  unfold entryBefore
  infer_instance

instance : IsTotal (String × Int) entryBefore := by
  constructor
  intro a b
  rcases lt_trichotomy a.2 b.2 with h | h | h
  · exact Or.inr (Or.inl h)
  · rcases charListLeb_total a.1.data b.1.data with h2 | h2
    · exact Or.inr (Or.inr ⟨h.symm, h2⟩)
    · exact Or.inl (Or.inr ⟨h, h2⟩)
  · exact Or.inl (Or.inl h)

instance : IsTrans (String × Int) entryBefore := by
  constructor
  intro a b c hab hbc
  rcases hab with h1 | ⟨e1, s1⟩
  · rcases hbc with h2 | ⟨e2, s2⟩
    · exact Or.inl (h2.trans h1)
    · exact Or.inl (e2 ▸ h1)
  · rcases hbc with h2 | ⟨e2, s2⟩
    · exact Or.inl (e1 ▸ h2)
    · exact Or.inr ⟨e1.trans e2, charListLeb_trans _ _ _ s2 s1⟩

/-- `ZREVRANGE key 0 -1 WITHSCORES`: all members ordered by `entryBefore`. -/
def zrevrangeAll (store : Store) : List (String × Int) :=
  store.insertionSort entryBefore

/-- A ranking entry as the code ships it: the `Player` interface of
`index1.ts:11-14` (`{ playerId, score }`). -/
structure Player where
  playerId : String
  score : Int
deriving DecidableEq, Repr

/-- `getTopPlayers` (`index1.ts:132-149`): read the whole sorted set in
reverse range order and re-pair the flat `WITHSCORES` reply into `Player`
records. -/
def getTopPlayers (store : Store) : List Player :=
  (zrevrangeAll store).map (fun p => { playerId := p.1, score := p.2 })

/-- `addPlayer(playerId, initialScore)` (`index1.ts:109-111`): a plain
`ZADD`. -/
def addPlayer (store : Store) (playerId : String) (initialScore : Int) :
    Store × Nat :=
  zadd store initialScore playerId

/-- `updateScore(playerId, scoreIncrement)` (`index1.ts:113-130`): `ZINCRBY`,
returning the resulting score.  (The publish to the `score-updates` pub/sub
channel only feeds a logging subscriber and does not affect the store or the
WebSocket fan-out.) -/
def updateScore (store : Store) (playerId : String) (scoreIncrement : Int) :
    Store × Int :=
  zincrby store scoreIncrement playerId

/-- Convenience: the score of a member, defaulting to 0 when absent. -/
def zscoreOr0 (s : Store) (id : String) : Int :=
  (zscore s id).getD 0

/-- A sequence of `updateScore` calls for one player id applied in order. -/
def applyDeltas (store : Store) (id : String) (ds : List Int) : Store :=
  ds.foldl (fun s d => (updateScore s id d).1) store

/-! ## WebSocket hub (`setupWebSocketHandlers`, `index1.ts:151-203`) -/

/-- `ws` connection ready states (`WebSocket.CONNECTING/OPEN/CLOSING/CLOSED`). -/
inductive ReadyState where
  | Connecting
  | Open
  | Closing
  | Closed
deriving DecidableEq, Repr

/-- `client.readyState === WebSocket.OPEN` (`index1.ts:179`). -/
def ReadyState.isOpen : ReadyState → Bool
  | .Open => true
  | _ => false

/-- One WebSocket client as the broadcast loop sees it: a handle and its
current ready state. -/
structure Conn where
  cid : Nat
  readyState : ReadyState
deriving DecidableEq, Repr

/-- A serialized outbound frame: the code always sends
`JSON.stringify({ type: …, data: topPlayers })` (`index1.ts:157-160` and
`180-183`). -/
structure OutMessage where
  mtype : String
  data : List Player
deriving DecidableEq, Repr

/-- The `data` field of a recognized inbound frame, destructured at
`index1.ts:170` as `{ playerId, scoreIncrement }`. -/
structure InboundData where
  playerId : String
  scoreIncrement : Int
deriving DecidableEq, Repr

/-- An inbound WebSocket frame as `JSON.parse` + field access sees it:
either unparseable JSON (`JSON.parse` throws), or a parsed object with a
`type` field and an optional `data` object. -/
inductive Inbound where
  | malformed
  | msg (mtype : String) (data : Option InboundData)
deriving DecidableEq, Repr

/-- Hub state: the Redis store plus `wss.clients`, the set of live
connections (insertion-ordered, as `ws` iterates it). -/
structure HubState where
  store : Store
  clients : List Conn
deriving DecidableEq, Repr

/-- The result of running one event handler: the new hub state, the
`(client-handle, frame)` sends it performed, and whether it closed the
inbound connection (the code never does: no `ws.close()`/`terminate()`
appears in any handler). -/
structure HandleResult where
  state : HubState
  sends : List (Nat × OutMessage)
  closedConn : Bool
deriving DecidableEq, Repr

/-- The frame both push sites build: type `"leaderboard:update"`, data the
current full ranking. -/
def leaderboardMsg (store : Store) : OutMessage :=
  { mtype := "leaderboard:update", data := getTopPlayers store }

/-- The broadcast loop of `index1.ts:178-185`: iterate `wss.clients`, send
only to clients whose `readyState` is `OPEN`. -/
def broadcastSends (clients : List Conn) (m : OutMessage) :
    List (Nat × OutMessage) :=
  (clients.filter (fun c => c.readyState.isOpen)).map (fun c => (c.cid, m))

/-- The body of the `message` handler (`index1.ts:166-186`), before the
surrounding `try`: it throws (`Except.error`) when `JSON.parse` fails on
unparseable input, or when `parsedMessage.data` is absent and the
destructuring at line 170 raises a `TypeError`.  A frame whose `type` is not
`"player:update-score"` falls through the `if` and does nothing.  A
recognized frame increments the score, recomputes the ranking and broadcasts
it to every OPEN client. -/
def handleMessageBody (st : HubState) : Inbound →
    Except String (Store × List (Nat × OutMessage))
  | .malformed => .error "SyntaxError: Unexpected token in JSON"
  | .msg t d =>
    if t = "player:update-score" then
      match d with
      | none => .error "TypeError: cannot destructure property of undefined"
      | some dta =>
        let r := updateScore st.store dta.playerId dta.scoreIncrement
        (Except.ok (r.1, broadcastSends st.clients (leaderboardMsg r.1)))
    else .ok (st.store, [])

/-- The full `message` handler (`index1.ts:165-190`): the body wrapped in
`try { … } catch (error) { console.error(…) }`.  An error is logged and
otherwise discarded — the store is untouched, nothing is sent, and the
connection is not closed. -/
def handleMessage (st : HubState) (m : Inbound) : HandleResult :=
  match handleMessageBody st m with
  | .ok (s, sends) => { state := { store := s, clients := st.clients }, sends := sends, closedConn := false }
  | .error _ => { state := st, sends := [], closedConn := false }

/-- The `connection` handler (`index1.ts:152-163`): the new socket `c` is
already a member of `wss.clients` when the event fires; the handler fetches
the ranking and sends it to `c`.  `fetchFails` models `getTopPlayers`
rejecting (Redis unreachable): the `catch` logs the error and the handler
continues — no frame is sent, the socket stays registered, and its
`message`/`close` listeners are still installed. -/
def handleConnection (st : HubState) (c : Conn) (fetchFails : Bool) :
    HandleResult :=
  let st2 : HubState := { store := st.store, clients := st.clients ++ [c] }
  if fetchFails then
    { state := st2, sends := [], closedConn := false }
  else
    { state := st2, sends := [(c.cid, leaderboardMsg st.store)], closedConn := false }

/-! ## Lemmas about the store primitives -/

theorem zincrby_ret (store : Store) (d : Int) (id : String) :
    (zincrby store d id).2 = zscoreOr0 store id + d := by
  induction store with
  | nil => simp [zincrby, zscoreOr0, zscore]
  | cons p rest ih =>
    obtain ⟨k, v⟩ := p
    by_cases h : k = id
    · simp [zincrby, zscoreOr0, zscore, h]
    · simp [zincrby, zscoreOr0, zscore, h, ih]

theorem zscore_zincrby_self (store : Store) (d : Int) (id : String) :
    zscore (zincrby store d id).1 id = some (zscoreOr0 store id + d) := by
  induction store with
  | nil => simp [zincrby, zscoreOr0, zscore]
  | cons p rest ih =>
    obtain ⟨k, v⟩ := p
    by_cases h : k = id
    · simp [zincrby, zscoreOr0, zscore, h]
    · simp [zincrby, zscoreOr0, zscore, h, ih]

theorem zscore_zincrby_other (store : Store) (d : Int) (id id2 : String)
    (h : id2 ≠ id) :
    zscore (zincrby store d id).1 id2 = zscore store id2 := by
  have h2 : id ≠ id2 := fun e => h e.symm
  induction store with
  | nil => simp [zincrby, zscore, h2]
  | cons p rest ih =>
    obtain ⟨k, v⟩ := p
    by_cases hk : k = id
    · subst hk
      simp [zincrby, zscore, h2]
    · by_cases hk2 : k = id2
      · simp [zincrby, zscore, hk, hk2, h]
      · simp [zincrby, zscore, hk, hk2, ih]

theorem zscore_eq_some_mem (store : Store) (id : String) (v : Int)
    (h : zscore store id = some v) : (id, v) ∈ store := by
  induction store with
  | nil => simp [zscore] at h
  | cons p rest ih =>
    obtain ⟨k, w⟩ := p
    by_cases hk : k = id
    · subst hk
      simp [zscore] at h
      simp [h]
    · simp [zscore, hk] at h
      exact List.mem_cons_of_mem _ (ih h)

theorem zscore_zadd_self (store : Store) (s : Int) (id : String) :
    zscore (zadd store s id).1 id = some s := by
  induction store with
  | nil => simp [zadd, zscore]
  | cons p rest ih =>
    obtain ⟨k, v⟩ := p
    by_cases h : k = id
    · simp [zadd, zscore, h]
    · simp [zadd, zscore, h, ih]

theorem zscore_zadd_other (store : Store) (s : Int) (id id2 : String)
    (h : id2 ≠ id) :
    zscore (zadd store s id).1 id2 = zscore store id2 := by
  have h2 : id ≠ id2 := fun e => h e.symm
  induction store with
  | nil => simp [zadd, zscore, h2]
  | cons p rest ih =>
    obtain ⟨k, v⟩ := p
    by_cases hk : k = id
    · subst hk
      simp [zadd, zscore, h2]
    · by_cases hk2 : k = id2
      · simp [zadd, zscore, hk, hk2, h]
      · simp [zadd, zscore, hk, hk2, ih]

/-! ## Lemmas about the ranking query -/

theorem mem_zrevrangeAll (store : Store) (p : String × Int) :
    p ∈ zrevrangeAll store ↔ p ∈ store :=
  (store.perm_insertionSort entryBefore).mem_iff

theorem zrevrangeAll_sorted (store : Store) :
    (zrevrangeAll store).Sorted entryBefore :=
  store.sorted_insertionSort entryBefore

theorem getTopPlayers_scoreDesc (store : Store) :
    (getTopPlayers store).Pairwise (fun a b => b.score ≤ a.score) := by
  have h := (zrevrangeAll_sorted store).imp
    (fun {a b} (hab : entryBefore a b) => show b.2 ≤ a.2 by
      rcases hab with h1 | ⟨h1, _⟩
      · exact le_of_lt h1
      · exact le_of_eq h1.symm)
  exact h.map _ (fun a b hab => hab)

theorem mem_getTopPlayers (store : Store) (id : String) (v : Int)
    (h : (id, v) ∈ store) :
    ({ playerId := id, score := v } : Player) ∈ getTopPlayers store := by
  unfold getTopPlayers
  exact List.mem_map_of_mem _ ((mem_zrevrangeAll store _).mpr h)

theorem getTopPlayers_nonempty (store : Store) (h : store ≠ []) :
    getTopPlayers store ≠ [] := by
  obtain ⟨p, hp⟩ := List.exists_mem_of_ne_nil store h
  intro hcontra
  have := mem_getTopPlayers store p.1 p.2 (by simpa using hp)
  simp [hcontra] at this

theorem zscoreOr0_updateScore (store : Store) (id : String) (d : Int) :
    zscoreOr0 ((updateScore store id d).1) id = zscoreOr0 store id + d := by
  unfold zscoreOr0 updateScore
  rw [zscore_zincrby_self]
  rfl

theorem zscoreOr0_applyDeltas (id : String) (ds : List Int) :
    ∀ store : Store,
      zscoreOr0 (applyDeltas store id ds) id = zscoreOr0 store id + ds.sum := by
  induction ds with
  | nil =>
    intro store
    simp [applyDeltas]
  | cons d rest ih =>
    intro store
    have h1 : applyDeltas store id (d :: rest)
        = applyDeltas ((updateScore store id d).1) id rest := rfl
    rw [h1, ih, zscoreOr0_updateScore, List.sum_cons]
    ring

/-! ## Claim C1 — "registering an existing participant is a no-op" -/

/-- C1, as stated, is FALSE: `addPlayer` issues a plain `ZADD`, and `ZADD`
with no flags UPDATES the score of an existing member.  Registering `"a"`
(score 5) again with `initialScore = 7` changes its score to 7, not 5. -/
theorem C1_counterexample :
    zscore (addPlayer [("a", 5)] "a" 7).1 "a" = some 7 ∧
      ¬ zscore (addPlayer [("a", 5)] "a" 7).1 "a" = some 5 := by
  decide

/-- C1 amended: re-registering a participant OVERWRITES its score with the
new `initialScore` (the `ZADD` upsert-update semantics of
`index1.ts:109-111`); every other participant's score is untouched. -/
theorem C1_addPlayer_overwrites (store : Store) (id : String) (s2 : Int) :
    zscore (addPlayer store id s2).1 id = some s2 ∧
      ∀ id2, id2 ≠ id →
        zscore (addPlayer store id s2).1 id2 = zscore store id2 := by
  constructor
  · exact zscore_zadd_self store s2 id
  · intro id2 h
    exact zscore_zadd_other store s2 id id2 h

/-- Witness for `C1_addPlayer_overwrites` at store `{a: 5, b: 1}`,
re-registering `a` with score 7. -/
theorem C1_addPlayer_overwrites_witness :
    zscore (addPlayer [("a", 5), ("b", 1)] "a" 7).1 "a" = some 7 ∧
      zscore (addPlayer [("a", 5), ("b", 1)] "a" 7).1 "b"
        = zscore [("a", 5), ("b", 1)] "b" :=
  ⟨(C1_addPlayer_overwrites [("a", 5), ("b", 1)] "a" 7).1,
   (C1_addPlayer_overwrites [("a", 5), ("b", 1)] "a" 7).2 "b" (by decide)⟩

/-! ## Claim C2 — "empty id is rejected with InvalidInput" -/

/-- C2, as stated, is FALSE: the `message` handler (`index1.ts:165-190`)
never validates `playerId`.  A `player:update-score` frame with
`playerId = ""` and `delta = 5`, arriving at a hub with an empty store and
one OPEN client, mutates the store (creating the empty-string participant
with score 5) and produces a broadcast — not an `InvalidInput` failure. -/
theorem C2_counterexample :
    ¬ (handleMessage { store := [], clients := [{ cid := 0, readyState := ReadyState.Open }] }
          (Inbound.msg "player:update-score" (some { playerId := "", scoreIncrement := 5 }))).state.store
        = ([] : Store) ∧
      ¬ (handleMessage { store := [], clients := [{ cid := 0, readyState := ReadyState.Open }] }
          (Inbound.msg "player:update-score" (some { playerId := "", scoreIncrement := 5 }))).sends
        = [] := by
  decide

/-- C2 amended: a score-delta frame whose participant id is the empty string
is NOT rejected — it is processed exactly like any other id: the store's
empty-string member is incremented (created if absent) and the new ranking
is broadcast to the OPEN clients. -/
theorem C2_emptyId_processed (st : HubState) (d : Int) :
    handleMessage st (Inbound.msg "player:update-score"
        (some { playerId := "", scoreIncrement := d }))
      = { state := { store := (updateScore st.store "" d).1, clients := st.clients },
          sends := broadcastSends st.clients (leaderboardMsg (updateScore st.store "" d).1),
          closedConn := false } ∧
      zscore (updateScore st.store "" d).1 "" = some (zscoreOr0 st.store "" + d) := by
  constructor
  · simp [handleMessage, handleMessageBody]
  · exact zscore_zincrby_self st.store d ""

/-! ## Claim C3 — score accumulation under sequences of deltas -/

/-- C3: for any sequence of `updateScore` calls on one id, the final score is
the initial score (0 if absent) plus the sum of the deltas; each call returns
the resulting score; a delta applied to an absent participant creates it with
score equal to that delta. -/
theorem C3_score_accumulation (store : Store) (id : String) (ds : List Int)
    (d : Int) :
    zscoreOr0 (applyDeltas store id ds) id = zscoreOr0 store id + ds.sum ∧
      (updateScore store id d).2 = zscoreOr0 store id + d ∧
      (zscore store id = none →
        zscore (updateScore store id d).1 id = some d) := by
  refine ⟨zscoreOr0_applyDeltas id ds store, zincrby_ret store d id, ?_⟩
  intro h
  have h2 := zscore_zincrby_self store d id
  rw [zscoreOr0, h] at h2
  simpa using h2

/-- Witness for `C3_score_accumulation`: starting absent, deltas
`[3, -1, 5]` leave `"a"` at 7; a single delta on an absent id creates it. -/
theorem C3_score_accumulation_witness :
    zscoreOr0 (applyDeltas [] "a" [3, -1, 5]) "a" = 0 + (3 + (-1 + (5 + 0))) ∧
      zscore (updateScore [] "a" 3).1 "a" = some 3 :=
  ⟨(C3_score_accumulation [] "a" [3, -1, 5] 3).1,
   (C3_score_accumulation [] "a" [3, -1, 5] 3).2.2 rfl⟩

/-! ## Claim C4 — ranking query sorted and stable -/

/-- C4: `getTopPlayers` returns entries sorted by score descending, and two
calls with no intervening mutation — i.e. on the same store value — return
identically ordered results (the query is a deterministic function of the
store: `ZREVRANGE` tie-breaks by member, so the order carries no hidden
state). -/
theorem C4_topPlayers_sorted_stable (store : Store) :
    (getTopPlayers store).Pairwise (fun a b => b.score ≤ a.score) ∧
      ∀ store2 : Store, store2 = store →
        getTopPlayers store2 = getTopPlayers store := by
  refine ⟨getTopPlayers_scoreDesc store, ?_⟩
  intro store2 h
  rw [h]

/-- Witness for `C4_topPlayers_sorted_stable` on the store
`{b: 10, a: 30, c: 10}` (insertion order), including a score tie. -/
theorem C4_topPlayers_sorted_stable_witness :
    (getTopPlayers [("b", 10), ("a", 30), ("c", 10)]).Pairwise
        (fun a b => b.score ≤ a.score) ∧
      getTopPlayers [("b", 10), ("a", 30), ("c", 10)]
        = getTopPlayers [("b", 10), ("a", 30), ("c", 10)] :=
  ⟨(C4_topPlayers_sorted_stable [("b", 10), ("a", 30), ("c", 10)]).1,
   (C4_topPlayers_sorted_stable [("b", 10), ("a", 30), ("c", 10)]).2
     [("b", 10), ("a", 30), ("c", 10)] rfl⟩

/-! ## Claim C5 — join-time catch-up push -/

/-- C5: when the store is nonempty and a new observer connects (and the
ranking fetch succeeds), the `connection` handler immediately sends that
observer exactly one frame carrying the current full ranking, with no
mutation of the store and the observer registered in the live set; the
ranking payload is nonempty. -/
theorem C5_join_catchup (st : HubState) (c : Conn) (h : st.store ≠ []) :
    (handleConnection st c false).sends = [(c.cid, leaderboardMsg st.store)] ∧
      (handleConnection st c false).state.store = st.store ∧
      c ∈ (handleConnection st c false).state.clients ∧
      (leaderboardMsg st.store).data ≠ [] := by
  refine ⟨rfl, rfl, ?_, ?_⟩
  · simp [handleConnection]
  · exact getTopPlayers_nonempty st.store h

/-- Witness for `C5_join_catchup`: joining with store `{a: 30, b: 10}` yields
the snapshot `[{a, 30}, {b, 10}]` for the new connection. -/
theorem C5_join_catchup_witness :
    (handleConnection { store := [("a", 30), ("b", 10)], clients := [] }
        { cid := 0, readyState := ReadyState.Open } false).sends
      = [(0, { mtype := "leaderboard:update",
               data := [{ playerId := "a", score := 30 },
                        { playerId := "b", score := 10 }] })] := by
  have h := C5_join_catchup { store := [("a", 30), ("b", 10)], clients := [] }
    { cid := 0, readyState := ReadyState.Open } (by decide)
  rw [h.1]
  decide

/-! ## Claim C6 — post-mutation broadcast to exactly the OPEN clients -/

/-- C6: a recognized score-delta frame updates the store and then sends the
post-mutation ranking to precisely the clients whose ready state is OPEN
(the broadcast loop filters on `readyState === WebSocket.OPEN`); the ranking
payload contains the participant at its updated score. -/
theorem C6_broadcast_after_delta (st : HubState) (pid : String) (inc : Int) :
    (handleMessage st (Inbound.msg "player:update-score"
          (some { playerId := pid, scoreIncrement := inc }))).state.store
        = (updateScore st.store pid inc).1 ∧
      (handleMessage st (Inbound.msg "player:update-score"
          (some { playerId := pid, scoreIncrement := inc }))).sends
        = (st.clients.filter (fun c => c.readyState.isOpen)).map
            (fun c => (c.cid, leaderboardMsg (updateScore st.store pid inc).1)) ∧
      ({ playerId := pid, score := zscoreOr0 st.store pid + inc } : Player)
        ∈ (leaderboardMsg (updateScore st.store pid inc).1).data := by
  refine ⟨by simp [handleMessage, handleMessageBody],
          by simp [handleMessage, handleMessageBody, broadcastSends], ?_⟩
  have hmem : (pid, zscoreOr0 st.store pid + inc) ∈ (updateScore st.store pid inc).1 :=
    zscore_eq_some_mem _ _ _ (zscore_zincrby_self st.store inc pid)
  exact mem_getTopPlayers _ _ _ hmem

/-- Evaluation of the `message` handler on a recognized, well-formed frame:
increment, recompute, broadcast to the OPEN clients. -/
theorem handleMessage_recognized (st : HubState) (dta : InboundData) :
    handleMessage st (Inbound.msg "player:update-score" (some dta))
      = { state := { store := (updateScore st.store dta.playerId dta.scoreIncrement).1,
                     clients := st.clients },
          sends := broadcastSends st.clients
            (leaderboardMsg (updateScore st.store dta.playerId dta.scoreIncrement).1),
          closedConn := false } := by
  simp [handleMessage, handleMessageBody]

/-! ## Claim C7 — shape of the pushed frame -/

/-- C7, as stated, is FALSE: both push sites (`index1.ts:157-160` and
`180-183`) stamp the frame with type `"leaderboard:update"`, not the
`"ranking:update"` the claim names (and its entries are keyed `playerId`,
not `participantId`).  Concretely, the join-time push for store `{a: 30}`
carries type `"leaderboard:update"`. -/
theorem C7_counterexample :
    (handleConnection { store := [("a", 30)], clients := [] }
        { cid := 0, readyState := ReadyState.Open } false).sends
      = [(0, { mtype := "leaderboard:update",
               data := [{ playerId := "a", score := 30 }] })] ∧
      ¬ ("leaderboard:update" : String) = "ranking:update" := by
  decide

/-- C7 amended: every frame pushed to an observer — on join and on
post-mutation broadcast alike — has type `"leaderboard:update"` and carries
the ranking entries (`{playerId, score}` records) ordered score-descending. -/
theorem C7_push_shape (st : HubState) (c : Conn) (ff : Bool) (m : Inbound) :
    (∀ s ∈ (handleConnection st c ff).sends,
        s.2.mtype = "leaderboard:update" ∧
          s.2.data.Pairwise (fun a b => b.score ≤ a.score)) ∧
      (∀ s ∈ (handleMessage st m).sends,
        s.2.mtype = "leaderboard:update" ∧
          s.2.data.Pairwise (fun a b => b.score ≤ a.score)) := by
  constructor
  · intro s hs
    cases ff with
    | true => simp [handleConnection] at hs
    | false =>
      simp [handleConnection] at hs
      rw [hs]
      exact ⟨rfl, getTopPlayers_scoreDesc st.store⟩
  · intro s hs
    cases m with
    | malformed => simp [handleMessage, handleMessageBody] at hs
    | msg t d =>
      by_cases ht : t = "player:update-score"
      · cases d with
        | none =>
          rw [ht] at hs
          simp [handleMessage, handleMessageBody] at hs
        | some dta =>
          rw [ht] at hs
          simp [handleMessage, handleMessageBody, broadcastSends] at hs
          obtain ⟨c2, -, hc2⟩ := hs
          rw [← hc2]
          exact ⟨rfl, getTopPlayers_scoreDesc _⟩
      · simp [handleMessage, handleMessageBody, ht] at hs

/-- Witness for `C7_push_shape`: the join-time frame for store `{a: 30}`. -/
theorem C7_push_shape_witness :
    ({ mtype := "leaderboard:update",
       data := [{ playerId := "a", score := 30 }] } : OutMessage).mtype
        = "leaderboard:update" ∧
      ([{ playerId := "a", score := 30 }] : List Player).Pairwise
        (fun a b => b.score ≤ a.score) :=
  (C7_push_shape { store := [("a", 30)], clients := [] }
      { cid := 0, readyState := ReadyState.Open } false Inbound.malformed).1
    (0, { mtype := "leaderboard:update",
          data := [{ playerId := "a", score := 30 }] })
    (by decide)

/-! ## Claim C8 — which inbound frames count as score-delta intents -/

/-- C8, as stated, is FALSE: the recognized type is `"player:update-score"`
(`index1.ts:169`), not `"score:delta"`.  A well-formed frame with type
`"score:delta"` is ignored — store untouched, nothing sent — even though the
claim says exactly that shape is treated as a score-delta intent. -/
theorem C8_counterexample :
    handleMessage
        { store := [("a", 0)], clients := [{ cid := 0, readyState := ReadyState.Open }] }
        (Inbound.msg "score:delta" (some { playerId := "a", scoreIncrement := 5 }))
      = { state := { store := [("a", 0)],
                     clients := [{ cid := 0, readyState := ReadyState.Open }] },
          sends := [], closedConn := false } := by
  decide

/-- C8 amended: an inbound frame is treated as a score-delta intent exactly
when its type is `"player:update-score"` (with a `data` object carrying
`playerId`/`scoreIncrement`); any other type value is ignored with no store
mutation and no broadcast. -/
theorem C8_recognized_type (st : HubState) (t : String)
    (d : Option InboundData) (dta : InboundData) :
    (t ≠ "player:update-score" →
        handleMessage st (Inbound.msg t d)
          = { state := st, sends := [], closedConn := false }) ∧
      handleMessage st (Inbound.msg "player:update-score" (some dta))
        = { state := { store := (updateScore st.store dta.playerId dta.scoreIncrement).1,
                       clients := st.clients },
            sends := broadcastSends st.clients
              (leaderboardMsg (updateScore st.store dta.playerId dta.scoreIncrement).1),
            closedConn := false } := by
  constructor
  · intro ht
    simp [handleMessage, handleMessageBody, ht]
  · exact handleMessage_recognized st dta

/-- Witness for `C8_recognized_type`: type `"score:delta"` is ignored while
`"player:update-score"` is processed, on a one-client hub. -/
theorem C8_recognized_type_witness :
    handleMessage
        { store := [("a", 0)], clients := [{ cid := 0, readyState := ReadyState.Open }] }
        (Inbound.msg "other:type" (some { playerId := "a", scoreIncrement := 5 }))
      = { state := { store := [("a", 0)],
                     clients := [{ cid := 0, readyState := ReadyState.Open }] },
          sends := [], closedConn := false } ∧
      handleMessage
        { store := [("a", 0)], clients := [{ cid := 0, readyState := ReadyState.Open }] }
        (Inbound.msg "player:update-score" (some { playerId := "a", scoreIncrement := 5 }))
      = { state := { store := [("a", 5)],
                     clients := [{ cid := 0, readyState := ReadyState.Open }] },
          sends := [(0, { mtype := "leaderboard:update",
                          data := [{ playerId := "a", score := 5 }] })],
          closedConn := false } := by
  have h := C8_recognized_type
    { store := [("a", 0)], clients := [{ cid := 0, readyState := ReadyState.Open }] }
    "other:type" (some { playerId := "a", scoreIncrement := 5 })
    { playerId := "a", scoreIncrement := 5 }
  refine ⟨h.1 (by decide), ?_⟩
  rw [h.2]
  decide

/-! ## Claim C9 — malformed inbound frames are a logged no-op -/

/-- C9: processing any inbound frame never closes the connection and never
touches the live client set; when the handler body throws (unparseable JSON,
or a recognized type with no `data` to destructure), the `catch` makes it a
pure no-op — store unchanged, nothing sent; and the clients, being
unchanged, still receive the broadcast of any later well-formed delta
frame. -/
theorem C9_malformed_safe (st : HubState) (m : Inbound) :
    (handleMessage st m).closedConn = false ∧
      (handleMessage st m).state.clients = st.clients ∧
      (∀ e, handleMessageBody st m = Except.error e →
        handleMessage st m = { state := st, sends := [], closedConn := false }) ∧
      (∀ c ∈ st.clients, c.readyState = ReadyState.Open →
        ∀ dta : InboundData,
          (c.cid, leaderboardMsg
              (updateScore (handleMessage st m).state.store
                dta.playerId dta.scoreIncrement).1)
            ∈ (handleMessage (handleMessage st m).state
                (Inbound.msg "player:update-score" (some dta))).sends) := by
  refine ⟨?_, ?_, ?_, ?_⟩
  · unfold handleMessage
    cases handleMessageBody st m with
    | ok r => rfl
    | error e => rfl
  · unfold handleMessage
    cases handleMessageBody st m with
    | ok r => rfl
    | error e => rfl
  · intro e he
    unfold handleMessage
    rw [he]
  · intro c hc hopen dta
    have hcl : (handleMessage st m).state.clients = st.clients := by
      unfold handleMessage
      cases handleMessageBody st m with
      | ok r => rfl
      | error e => rfl
    rw [handleMessage_recognized (handleMessage st m).state dta]
    show (c.cid, _) ∈ broadcastSends (handleMessage st m).state.clients _
    rw [hcl]
    unfold broadcastSends
    exact List.mem_map_of_mem _
      (List.mem_filter.mpr ⟨hc, by rw [hopen]; rfl⟩)

/-- Witness for `C9_malformed_safe` at a one-client hub and an unparseable
frame: the error branch is a no-op and the client still gets the next
broadcast. -/
theorem C9_malformed_safe_witness :
    handleMessage { store := [], clients := [{ cid := 0, readyState := ReadyState.Open }] }
        Inbound.malformed
      = { state := { store := [],
                     clients := [{ cid := 0, readyState := ReadyState.Open }] },
          sends := [], closedConn := false } ∧
      (0, leaderboardMsg
          (updateScore
            (handleMessage
              { store := [], clients := [{ cid := 0, readyState := ReadyState.Open }] }
              Inbound.malformed).state.store "a" 5).1)
        ∈ (handleMessage
            (handleMessage
              { store := [], clients := [{ cid := 0, readyState := ReadyState.Open }] }
              Inbound.malformed).state
            (Inbound.msg "player:update-score"
              (some { playerId := "a", scoreIncrement := 5 }))).sends :=
  ⟨(C9_malformed_safe
      { store := [], clients := [{ cid := 0, readyState := ReadyState.Open }] }
      Inbound.malformed).2.2.1 "SyntaxError: Unexpected token in JSON" rfl,
   (C9_malformed_safe
      { store := [], clients := [{ cid := 0, readyState := ReadyState.Open }] }
      Inbound.malformed).2.2.2 { cid := 0, readyState := ReadyState.Open }
     (by decide) rfl { playerId := "a", scoreIncrement := 5 }⟩

/-! ## Claim C10 — failed join-time fetch is logged, join still happens -/

/-- C10: when the ranking fetch on connection rejects, the `catch` only
logs: the new observer gets no catch-up frame at all, yet it stays in the
live set with its state untouched (its `message`/`close` listeners are still
installed) and the store is unmutated; the connection is not closed. -/
theorem C10_join_fetch_failure (st : HubState) (c : Conn) :
    handleConnection st c true
      = { state := { store := st.store, clients := st.clients ++ [c] },
          sends := [], closedConn := false } ∧
      c ∈ (handleConnection st c true).state.clients := by
  refine ⟨rfl, ?_⟩
  simp [handleConnection]

example : zscore (addPlayer [("a", 5)] "a" 7).1 "a" = some 7 := by decide
example : getTopPlayers [("a", 30), ("b", 10)] = [⟨"a", 30⟩, ⟨"b", 10⟩] := by decide
example : getTopPlayers [("b", 10), ("a", 30)] = [⟨"a", 30⟩, ⟨"b", 10⟩] := by decide
example : getTopPlayers [("b", 10), ("a", 10)] = [⟨"b", 10⟩, ⟨"a", 10⟩] := by decide
example : handleMessage ⟨[], [⟨0, .Open⟩]⟩ (.msg "player:update-score" (some ⟨"", 5⟩)) = ⟨⟨[("", 5)], [⟨0, .Open⟩]⟩, [(0, ⟨"leaderboard:update", [⟨"", 5⟩]⟩)], false⟩ := by decide
example : handleMessage ⟨[("a", 0)], [⟨0, .Open⟩]⟩ (.msg "score:delta" (some ⟨"a", 5⟩)) = ⟨⟨[("a", 0)], [⟨0, .Open⟩]⟩, [], false⟩ := by decide
example : handleConnection ⟨[("a", 30), ("b", 10)], []⟩ ⟨0, .Open⟩ false = ⟨⟨[("a", 30), ("b", 10)], [⟨0, .Open⟩]⟩, [(0, ⟨"leaderboard:update", [⟨"a", 30⟩, ⟨"b", 10⟩]⟩)], false⟩ := by decide
example : handleMessage ⟨[("a", 5)], [⟨0, .Open⟩, ⟨1, .Closed⟩]⟩ (.msg "player:update-score" (some ⟨"a", 10⟩)) = ⟨⟨[("a", 15)], [⟨0, .Open⟩, ⟨1, .Closed⟩]⟩, [(0, ⟨"leaderboard:update", [⟨"a", 15⟩]⟩)], false⟩ := by decide

end RealtimeLeaderboard
